import Mathlib

/-!
Verification of the SafeSplitX fraud-detection core against its
natural-language specification.

The Python sources are embedded shallowly:

* floating-point numbers are modelled as exact rationals (`ℚ`);
* Python dictionaries with a fixed key set become Lean structures;
* `datetime` values become rational numbers of seconds measured from a
  Monday-midnight epoch, so `hour` and `weekday` are derived arithmetically;
* code that catches exceptions of a sub-computation takes that
  sub-computation's outcome as an `Except` argument;
* `numpy.std` returns an irrational square root, so the anomaly signal is
  parameterised over the standard-deviation oracle `σ`; every theorem about
  it holds for an arbitrary `σ`, hence in particular for the real one.

Sources embedded: `fraud_detection/schemas.py`,
`fraud_detection/models/rule_engine.py` (fraud-detection-service),
`fraud_detection/models/ensemble.py`,
`fraud_detection/models/realtime_risk_engine.py`,
`fraud_detection/models/behavioral_analyzer.py`,
`fraud_detection/models/smart_notifications.py`.
-/

namespace SafeSplitX

/-- One participant of an expense (`schemas.ParticipantInfo`). -/
structure Participant where
  user_id : String
  amount : ℚ
deriving DecidableEq

/-- Input expense (`schemas.ExpenseIn`).  The human-readable free-text
fields that no embedded computation reads (`itemized`) are omitted. -/
structure ExpenseIn where
  expense_id : String
  group_id : String
  payer_id : String
  participants : List Participant
  amount : ℚ
  currency : String
  merchant : Option String
  category : Option String
  timestamp : String
deriving DecidableEq

/-- Sum of the participant amounts, `sum(p.amount for p in participants)`. -/
def participant_total (ps : List Participant) : ℚ :=
  (ps.map Participant.amount).sum

/-- The pydantic validator `ExpenseIn.validate_participants_amount`
(schemas.py lines 46-59), including its guard `if 'amount' not in values:
return v`.  `values_amount` is the `amount` entry of pydantic's `values`
dict of previously-validated fields, `none` when absent. -/
def validate_participants_amount (values_amount : Option ℚ)
    (ps : List Participant) : Except String (List Participant) :=
  match values_amount with
  | none => Except.ok ps
  | some amount =>
    if |participant_total ps - amount| > 1/100 then
      Except.error "Participant amounts must sum to total amount"
    else
      Except.ok ps

/-- The validator as pydantic actually invokes it on an `ExpenseIn`:
field validators run in declaration order and `values` holds only the
previously-validated fields, and `participants` (schemas.py line 22) is
declared before `amount` (line 23), so the validator for `participants`
never sees `amount` in `values` — the guard returns the participants
unchecked and the raise is unreachable. -/
def expense_schema_accepts_participants (e : ExpenseIn) :
    Except String (List Participant) :=
  validate_participants_amount none e.participants

/-- A rule violation (`schemas.RuleViolation`).  The interpolated
human-readable `message` string is presentational and omitted. -/
structure RuleViolation where
  rule_name : String
  severity : String
  confidence : ℚ
deriving DecidableEq

/-- `RuleEngine._check_participant_mismatch` (rule_engine.py lines 96-120):
amount-sum mismatch beyond 0.01 and duplicate participants. -/
def check_participant_mismatch (e : ExpenseIn) : List RuleViolation :=
  let total := participant_total e.participants
  let ids := e.participants.map Participant.user_id
  (if |total - e.amount| > 1/100 then
    [⟨"amount_mismatch", "high", 95/100⟩] else []) ++
  (if ids.length ≠ ids.dedup.length then
    [⟨"duplicate_participants", "medium", 9/10⟩] else [])

/-- The try/except wrapper of `RuleEngine.check_rules` (rule_engine.py lines
44-77): any exception escaping the rule checks is swallowed and the call
returns an empty violation list. -/
def check_rules (body : Except String (List RuleViolation)) :
    List RuleViolation :=
  match body with
  | Except.error _ => []
  | Except.ok vs => vs

/-- Configurable ensemble weights (`EnsembleModel.__init__`). -/
structure EnsembleConfig where
  ml_weight : ℚ
  rule_weight : ℚ
  suspicion_threshold : ℚ
deriving DecidableEq

/-- The environment-variable defaults `ML_WEIGHT=0.7`, `RULE_WEIGHT=0.3`,
`SUSPICION_THRESHOLD=0.6`. -/
def defaultEnsembleConfig : EnsembleConfig := ⟨7/10, 3/10, 3/5⟩

/-- `EnsembleModel.severity_weights` lookup with the dict `.get` default
0.5 for unknown severities. -/
def severity_weight (s : String) : ℚ :=
  if s = "low" then 3/10
  else if s = "medium" then 6/10
  else if s = "high" then 9/10
  else 1/2

/-- `EnsembleModel._calculate_rule_score` (ensemble.py lines 120-149). -/
def calculate_rule_score (violations : List RuleViolation) : ℚ :=
  if violations = [] then 0
  else
    let total_score :=
      (violations.map (fun v => severity_weight v.severity * v.confidence)).sum
    let max_possible_score :=
      (violations.map (fun v => severity_weight v.severity)).sum
    if max_possible_score > 0 then min 1 (total_score / max_possible_score)
    else 0

/-- `EnsembleModel._combine_scores` (ensemble.py lines 151-170). -/
def combine_scores (cfg : EnsembleConfig) (ml_score rule_score : ℚ) : ℚ :=
  let combined := cfg.ml_weight * ml_score + cfg.rule_weight * rule_score
  if ml_score > 1/2 ∧ rule_score > 1/2 then min 1 (combined * (11/10))
  else combined

/-- `EnsembleModel._create_explanation` (ensemble.py lines 172-212): top-5 ML
contributions plus violations-as-contributions, sorted by absolute
contribution descending, truncated to 10.  Entries are (name, contribution);
the presentational `value` field is omitted. -/
def create_explanation (cfg : EnsembleConfig)
    (ml_explanation : List (String × ℚ)) (violations : List RuleViolation) :
    List (String × ℚ) :=
  let mlPart := ml_explanation.take 5
  let rulePart := violations.map (fun v =>
    ("rule_" ++ v.rule_name, severity_weight v.severity * v.confidence * cfg.rule_weight))
  ((mlPart ++ rulePart).mergeSort (fun a b => decide (|a.2| ≥ |b.2|))).take 10

/-- The prediction record built by `EnsembleModel.predict_single`.  These are
exactly the keys of the returned dict; there is no `degraded` flag and no
`warnings` list. -/
structure Verdict where
  anomaly_score : ℚ
  is_suspicious : Bool
  ml_score : ℚ
  rule_score : ℚ
  rule_violations : List RuleViolation
  explanation : List (String × ℚ)
  model_version : String
deriving DecidableEq

/-- The safe default returned by the `except` branch of
`EnsembleModel.predict_single` (ensemble.py lines 107-118). -/
def error_verdict : Verdict :=
  { anomaly_score := 0, is_suspicious := false, ml_score := 0, rule_score := 0,
    rule_violations := [], explanation := [], model_version := "error" }

/-- `EnsembleModel.predict_single` (ensemble.py lines 48-118).
`ml_present`/`ml_fitted` model `self.ml_model and self.ml_model.is_fitted`;
`ml_call` is the outcome of the external `predict_proba`/`explain_prediction`
calls (score and explanation list), which may raise; `rules_body` is the
outcome of the body of `check_rules`, whose own try/except is `check_rules`
above.  Everything after the ML call is exception-free, so the outer
`except` fires exactly when the ML call fails. -/
def predict_single (cfg : EnsembleConfig) (ml_present ml_fitted : Bool)
    (ml_version : String) (ml_call : Except String (ℚ × List (String × ℚ)))
    (rules_body : Except String (List RuleViolation)) : Verdict :=
  match (if ml_present && ml_fitted then ml_call else Except.ok (0, [])) with
  | Except.error _ => error_verdict
  | Except.ok (ml_score, ml_explanation) =>
    let rule_violations := check_rules rules_body
    let rule_score := calculate_rule_score rule_violations
    let final_score := combine_scores cfg ml_score rule_score
    { anomaly_score := final_score,
      is_suspicious := decide (final_score ≥ cfg.suspicion_threshold),
      ml_score := ml_score,
      rule_score := rule_score,
      rule_violations := rule_violations,
      explanation := create_explanation cfg ml_explanation rule_violations,
      model_version := if ml_present then ml_version else "rules_only" }

/-! ## Real-time risk engine (`realtime_risk_engine.py`)

Timestamps are rationals counting seconds from a Monday-midnight epoch, so
`datetime.hour` and `datetime.weekday()` become `hourOf` / `weekdayOf`. -/

/-- `datetime.hour` of a timestamp in epoch seconds. -/
def hourOf (t : ℚ) : ℤ := ⌊t / 3600⌋ % 24

/-- `datetime.weekday()` (0 = Monday) of a timestamp in epoch seconds. -/
def weekdayOf (t : ℚ) : ℤ := ⌊t / 86400⌋ % 7

/-- ASCII lower-casing of one character, as `str.lower` does on the
ASCII-only pattern vocabulary of the engine. -/
def charLower (c : Char) : Char :=
  if 'A' ≤ c ∧ c ≤ 'Z' then Char.ofNat (c.toNat + 32) else c

/-- `s.lower()` on the character list of a string. -/
def lowerStr (s : String) : List Char := s.data.map charLower

/-- Helper: does the haystack start with the pattern. -/
def beginsWith : List Char → List Char → Bool
  | _, [] => true
  | [], _ :: _ => false
  | h :: hs, p :: ps => h == p && beginsWith hs ps

/-- Python's substring test `pat in hay` on character lists. -/
def hasSub (hay pat : List Char) : Bool :=
  match hay with
  | [] => pat.isEmpty
  | _ :: t => beginsWith hay pat || hasSub t pat

/-- Python's `l[-n:]`: the last `n` elements. -/
def lastN (n : ℕ) (l : List α) : List α := l.drop (l.length - n)

/-- Expense data dict as read by the real-time engine (`.get` keys
`user_id`, `group_id`, `amount`, `category`, `location`, `description`). -/
structure ExpenseData where
  user_id : String
  group_id : String
  amount : ℚ
  category : String
  location : String
  description : String
deriving DecidableEq

/-- An entry of `recent_events` as read back by `_detect_anomalies`:
the stored event's user id and its details' amount and category. -/
structure StoredEvent where
  user_id : String
  amount : ℚ
  category : String
deriving DecidableEq

/-- `RealTimeRiskEngine._analyze_velocity` (realtime_risk_engine.py lines
148-175).  `window` is the per-user deque of (timestamp, amount) pairs
(maxlen 100), `mw` the monitoring window in seconds (default 3600);
the function appends the current transaction and evicts entries older
than `now - mw` before measuring. -/
def analyze_velocity (window : List (ℚ × ℚ)) (amount now mw : ℚ) : ℚ :=
  let w1 := window ++ [(now, amount)]
  let w1c := if 100 < w1.length then w1.drop (w1.length - 100) else w1
  let w2 := w1c.dropWhile (fun ta => decide (ta.1 < now - mw))
  if w2.length < 2 then 1/10
  else
    let recent_count : ℚ := w2.length
    let total_amount := (w2.map Prod.snd).sum
    let time_span := (now - w2.headI.1) / 3600
    if time_span = 0 then 9/10
    else (min 1 (recent_count / 20) + min 1 (total_amount / (time_span * 1000))) / 2

/-- `RealTimeRiskEngine.suspicious_patterns['round_amounts']`. -/
def round_amounts : List ℚ := [100, 250, 500, 1000, 2000, 5000]

/-- `suspicious_patterns['common_fraud_categories']`. -/
def common_fraud_categories : List String :=
  ["cash_advance", "gift_cards", "cryptocurrency", "gambling"]

/-- `suspicious_patterns['high_risk_locations']`. -/
def high_risk_locations : List String := ["atm", "casino", "pawn_shop", "gas_station"]

/-- The `suspicious_words` list of `_analyze_patterns`. -/
def suspicious_description_words : List String :=
  ["cash", "advance", "atm", "withdrawal", "transfer", "urgent", "emergency"]

/-- `RealTimeRiskEngine._analyze_patterns` (lines 177-208): four indicators
with weights 0.3/0.4/0.3/0.2, `factors` counted to 4, result
`min(1, risk_score / max(1, factors))`. -/
def analyze_patterns (e : ExpenseData) : ℚ :=
  let category := lowerStr e.category
  let location := lowerStr e.location
  let description := lowerStr e.description
  let r1 : ℚ := if e.amount ∈ round_amounts then 3/10 else 0
  let r2 := if common_fraud_categories.any (fun c => hasSub category c.data)
    then r1 + 4/10 else r1
  let r3 := if high_risk_locations.any (fun l => hasSub location l.data)
    then r2 + 3/10 else r2
  let r4 := if suspicious_description_words.any (fun w => hasSub description w.data)
    then r3 + 2/10 else r3
  let factors : ℚ := 4
  min 1 (r4 / max 1 factors)

/-- `RealTimeRiskEngine._analyze_group_coordination` (lines 210-245).
`gwindow` is the per-group deque (maxlen 200) of (timestamp, expense data). -/
def analyze_group_coordination (gwindow : List (ℚ × ExpenseData))
    (e : ExpenseData) (now mw : ℚ) : ℚ :=
  let w1 := gwindow ++ [(now, e)]
  let w1c := if 200 < w1.length then w1.drop (w1.length - 200) else w1
  let w2 := w1c.dropWhile (fun ta => decide (ta.1 < now - mw))
  if w2.length < 2 then 1/10
  else
    let amounts := (lastN 5 w2).map (fun te => te.2.amount)
    if amounts.dedup.length = 1 ∧ 1 < amounts.length then 8/10
    else
      let categories := (lastN 5 w2).map (fun te => te.2.category)
      if categories.dedup.length = 1 ∧ 2 < categories.length then 6/10
      else
        let times := (lastN 10 w2).map Prod.fst
        if 3 < times.length ∧
            (times.zip times.tail).all (fun p => decide (p.2 - p.1 < 300))
          then 7/10 else 2/10

/-- `RealTimeRiskEngine._detect_anomalies` (lines 247-280).  `σ` is the
`numpy.std` oracle (its exact value is an irrational square root; every
theorem below holds for an arbitrary `σ`). -/
def detect_anomalies (σ : List ℚ → ℚ) (recent_events : List StoredEvent)
    (uid : String) (e : ExpenseData) : ℚ :=
  let user_transactions := lastN 20 (recent_events.filter (fun ev => ev.user_id == uid))
  if user_transactions = [] then 3/10
  else
    let amounts := user_transactions.map StoredEvent.amount
    let avg_amount := amounts.sum / (amounts.length : ℚ)
    let std0 := if 1 < amounts.length then σ amounts else avg_amount * (1/2)
    let std_amount := if std0 = 0 then avg_amount * (1/10) else std0
    let z_score := if std_amount > 0 then |e.amount - avg_amount| / std_amount else 0
    let amount_anomaly := min 1 (z_score / 3)
    let categories := user_transactions.map StoredEvent.category
    let category_frequency :=
      if categories = [] then 0 else (categories.count e.category : ℚ) / (categories.length : ℚ)
    let category_anomaly := 1 - category_frequency
    (amount_anomaly + category_anomaly) / 2

/-- The category keywords of the business-hours check in
`_analyze_temporal_patterns`. -/
def leisure_category_words : List String := ["entertainment", "shopping", "dining"]

/-- `RealTimeRiskEngine._analyze_temporal_patterns` (lines 282-305); the
timing is that of the call (`current_time`), not of the expense. -/
def analyze_temporal_patterns (e : ExpenseData) (now : ℚ) : ℚ :=
  let hour := hourOf now
  let day_of_week := weekdayOf now
  let r1 : ℚ := if 23 ≤ hour ∨ hour ≤ 5 then 4/10 else 0
  let r2 := if 9 ≤ hour ∧ hour ≤ 17 ∧ day_of_week < 5 ∧
      leisure_category_words.any (fun w => hasSub (lowerStr e.category) w.data)
    then r1 + 2/10 else r1
  let r3 := if 5 ≤ day_of_week ∧ 1000 < e.amount then r2 + 3/10 else r2
  min 1 r3

/-- Python's float modulo `a % b` for positive `b`. -/
def pymod (a b : ℚ) : ℚ := a - b * ⌊a / b⌋

/-- The `suspicious_thresholds` list of `_analyze_amount_suspicion`. -/
def suspicious_thresholds : List ℚ := [999, 1999, 2999, 4999, 9999]

/-- `RealTimeRiskEngine._analyze_amount_suspicion` (lines 307-329), with the
source's sequential early returns. -/
def analyze_amount_suspicion (amount : ℚ) : ℚ :=
  if pymod amount 100 = 0 ∧ 100 ≤ amount then 3/10
  else if suspicious_thresholds.any (fun th => decide (th - 50 ≤ amount ∧ amount ≤ th))
    then 5/10
  else if 10000 < amount then 6/10
  else if 5000 < amount then 4/10
  else if amount ≤ 1 then 3/10
  else 1/10

/-- `RealTimeRiskEngine.risk_thresholds` (lines 63-68), as the literal dict:
note its keys are `high_velocity`, `suspicious_pattern`, `anomaly_detection`,
`group_coordination` — none of which is a key of the `risk_scores` dict. -/
def risk_thresholds : List (String × ℚ) :=
  [("high_velocity", 8/10), ("suspicious_pattern", 7/10),
   ("anomaly_detection", 6/10), ("group_coordination", 3/4)]

/-- `self.risk_thresholds.get(risk_type, 0.6)` of `_generate_alerts`. -/
def threshold_for (risk_type : String) : ℚ :=
  match risk_thresholds.lookup risk_type with
  | some t => t
  | none => 3/5

/-- One alert candidate of `_generate_alerts`; the presentational message,
timestamp and echoed expense fields are omitted. -/
structure AlertCandidate where
  risk_type : String
  severity : String
  score : ℚ
deriving DecidableEq

/-- `RealTimeRiskEngine._generate_alerts` (lines 335-352): one candidate per
`risk_scores` entry whose score reaches its looked-up threshold, severity
HIGH when the score is at least 0.8 else MEDIUM. -/
def generate_alerts (risk_scores : List (String × ℚ)) : List AlertCandidate :=
  risk_scores.filterMap (fun rs =>
    if threshold_for rs.1 ≤ rs.2 then
      some ⟨rs.1, if 8/10 ≤ rs.2 then "HIGH" else "MEDIUM", rs.2⟩
    else none)

/-- `RealTimeRiskEngine._categorize_risk` (lines 366-377). -/
def categorize_risk (overall_risk : ℚ) : String :=
  if 8/10 ≤ overall_risk then "CRITICAL"
  else if 3/5 ≤ overall_risk then "HIGH"
  else if 2/5 ≤ overall_risk then "MEDIUM"
  else if 1/5 ≤ overall_risk then "LOW"
  else "MINIMAL"

/-- The slices of engine state read by one `analyze_real_time_risk` call:
the caller's per-user velocity deque, per-group activity deque, and the
recent-events store. -/
structure EngineState where
  user_window : List (ℚ × ℚ)
  group_window : List (ℚ × ExpenseData)
  recent_events : List StoredEvent
deriving DecidableEq

/-- The verdict assembled by `analyze_real_time_risk`: the `risk_scores`
dict in insertion order, the overall score, alerts and risk level. -/
structure RTResult where
  risk_scores : List (String × ℚ)
  overall : ℚ
  alerts : List AlertCandidate
  risk_level : String
deriving DecidableEq

/-- `RealTimeRiskEngine.analyze_real_time_risk` (lines 80-146).  `now` is
the wall-clock `datetime.now()` taken at the start of the call; the overall
score is `np.mean` of the six signal values, computed before
`overall_realtime_risk` is inserted into the dict, and `_generate_alerts`
runs on the dict after that insertion. -/
def analyze_real_time_risk (σ : List ℚ → ℚ) (mw : ℚ) (st : EngineState)
    (e : ExpenseData) (now : ℚ) : RTResult :=
  let velocity_risk := analyze_velocity st.user_window e.amount now mw
  let pattern_risk := analyze_patterns e
  let coordination_risk := analyze_group_coordination st.group_window e now mw
  let anomaly_risk := detect_anomalies σ st.recent_events e.user_id e
  let temporal_risk := analyze_temporal_patterns e now
  let amount_suspicion := analyze_amount_suspicion e.amount
  let overall := (velocity_risk + pattern_risk + coordination_risk +
    anomaly_risk + temporal_risk + amount_suspicion) / 6
  let scores := [("velocity_risk", velocity_risk), ("pattern_risk", pattern_risk),
    ("coordination_risk", coordination_risk), ("anomaly_risk", anomaly_risk),
    ("temporal_risk", temporal_risk), ("amount_suspicion", amount_suspicion),
    ("overall_realtime_risk", overall)]
  { risk_scores := scores, overall := overall,
    alerts := generate_alerts scores, risk_level := categorize_risk overall }

/-! ## Behavioral profiles (`behavioral_analyzer.py`) -/

/-- `behavioral_analyzer.UserProfile` (dataclass defaults: counts 0,
averages 0.0, empty histories).  `group_memberships` and `last_updated`
are written but never read by any embedded computation and are omitted. -/
structure UserProfile where
  user_id : String
  total_expenses : ℕ
  avg_amount : ℚ
  favorite_categories : List String
  usual_times : List ℤ
  frequent_locations : List String
  preferred_payment_methods : List String
  risk_score : ℚ
deriving DecidableEq

/-- A profile as created lazily by `analyze_expense` on first sighting. -/
def freshUserProfile (uid : String) : UserProfile := ⟨uid, 0, 0, [], [], [], [], 0⟩

/-- `behavioral_analyzer.GroupProfile`.  Note: the dataclass defines **no**
`total_expenses` field. -/
structure GroupProfile where
  group_id : String
  members : List String
  avg_expense_amount : ℚ
  common_categories : List String
  expense_frequency : ℚ
  risk_incidents : ℕ
  trust_score : ℚ
deriving DecidableEq

/-- A group profile as created lazily by `analyze_expense`. -/
def freshGroupProfile (gid : String) : GroupProfile := ⟨gid, [], 0, [], 0, 0, 1⟩

/-- The user-profile half of `BehavioralAnalyzer.update_profiles`
(behavioral_analyzer.py lines 267-307).  `hour` is the parsed timestamp
hour; `none` models the swallowed parse failure (`except: pass`). -/
def update_user_profile (p : UserProfile) (amount : ℚ)
    (category payment_method location : String) (hour : Option ℤ)
    (is_fraud : Bool) : UserProfile :=
  let total := p.total_expenses + 1
  let avg := (p.avg_amount * ((total : ℚ) - 1) + amount) / (total : ℚ)
  let fc :=
    if category ∈ p.favorite_categories then p.favorite_categories
    else
      let l := p.favorite_categories ++ [category]
      if 5 < l.length then lastN 5 l else l
  let ut :=
    match hour with
    | none => p.usual_times
    | some h =>
      let l := p.usual_times ++ [h]
      if 20 < l.length then lastN 20 l else l
  let pm :=
    if payment_method ∈ p.preferred_payment_methods then p.preferred_payment_methods
    else p.preferred_payment_methods ++ [payment_method]
  let fl :=
    if location ∈ p.frequent_locations then p.frequent_locations
    else
      let l := p.frequent_locations ++ [location]
      if 10 < l.length then lastN 10 l else l
  { p with
    total_expenses := total, avg_amount := avg, favorite_categories := fc,
    usual_times := ut, preferred_payment_methods := pm, frequent_locations := fl,
    risk_score :=
      if is_fraud then min 1 (p.risk_score + 1/10) else max 0 (p.risk_score - 1/100) }

/-- The group-profile half of `BehavioralAnalyzer.update_profiles`
(behavioral_analyzer.py lines 309-328).  The source reads
`getattr(group_profile, 'total_expenses', 1)`; since `GroupProfile`
defines no `total_expenses` attribute and nothing ever sets one, the
`getattr` default 1 is returned on every call. -/
def update_group_profile (g : GroupProfile) (amount : ℚ) (category : String)
    (is_fraud : Bool) : GroupProfile :=
  let total_expenses : ℚ := 1
  let avg := (g.avg_expense_amount * total_expenses + amount) / (total_expenses + 1)
  let cc :=
    if category ∈ g.common_categories then g.common_categories
    else
      let l := g.common_categories ++ [category]
      if 5 < l.length then lastN 5 l else l
  if is_fraud then
    { g with
      avg_expense_amount := avg, common_categories := cc,
      risk_incidents := g.risk_incidents + 1,
      trust_score := max 0 (g.trust_score - 5/100) }
  else
    { g with
      avg_expense_amount := avg, common_categories := cc,
      trust_score := min 1 (g.trust_score + 1/1000) }

/-! ## Smart notifications (`smart_notifications.py`)

Times are rationals in minutes, matching `cooldown_minutes` and the
`datetime.now() - last_triggered > timedelta(minutes=...)` comparison. -/

/-- `smart_notifications.AlertSeverity`. -/
inductive AlertSeverity
  | CRITICAL
  | HIGH
  | MEDIUM
  | LOW
  | INFO
deriving DecidableEq

/-- The `severity_levels` ordinal dict of `_matches_rule`. -/
def severity_level : AlertSeverity → ℕ
  | .INFO => 0
  | .LOW => 1
  | .MEDIUM => 2
  | .HIGH => 3
  | .CRITICAL => 4

/-- One entry of a rule's `conditions` dict, with the `.get` defaults of
`_matches_rule` applied at parse time (`risk_score` max defaults to 1,
`expense_amount` max defaults to +infinity, modelled as `none`). -/
inductive RuleCondition
  | risk_score_range (lo hi : ℚ)
  | expense_amount_range (lo : ℚ) (hi : Option ℚ)
  | alert_type (t : String)
deriving DecidableEq

/-- `smart_notifications.NotificationRule` (the channel list is dispatch
plumbing and is omitted). -/
structure NotificationRule where
  name : String
  conditions : List RuleCondition
  severity_threshold : AlertSeverity
  cooldown_minutes : ℚ
  enabled : Bool
  last_triggered : Option ℚ
deriving DecidableEq

/-- The alert fields read by `_matches_rule`; `user_id`/`group_id` are
carried to express that matching and cooldown ignore them. -/
structure Alert where
  user_id : String
  group_id : String
  severity : AlertSeverity
  risk_score : ℚ
  expense_amount : ℚ
  risk_type : String
deriving DecidableEq

/-- One condition check of `SmartNotificationSystem._matches_rule`. -/
def cond_holds (al : Alert) : RuleCondition → Bool
  | .risk_score_range lo hi => decide (lo ≤ al.risk_score ∧ al.risk_score ≤ hi)
  | .expense_amount_range lo hi =>
      decide (lo ≤ al.expense_amount) &&
      (match hi with
       | none => true
       | some h => decide (al.expense_amount ≤ h))
  | .alert_type t => t == al.risk_type

/-- `SmartNotificationSystem._matches_rule` (lines 332-367). -/
def matches_rule (al : Alert) (r : NotificationRule) : Bool :=
  decide (severity_level r.severity_threshold ≤ severity_level al.severity) &&
  r.conditions.all (cond_holds al)

/-- `SmartNotificationSystem._should_notify` (lines 369-377): fire iff never
triggered, or strictly more than the cooldown has elapsed. -/
def should_notify (r : NotificationRule) (now : ℚ) : Bool :=
  match r.last_triggered with
  | none => true
  | some t => decide (now - t > r.cooldown_minutes)

/-- The firing condition of one loop iteration of `_process_alert`
(lines 321-330): enabled, matching, and out of cooldown. -/
def fire_cond (al : Alert) (now : ℚ) (r : NotificationRule) : Bool :=
  r.enabled && matches_rule al r && should_notify r now

/-- The state change `_process_alert` applies to one rule: a firing rule
gets `last_triggered = now` written onto the rule object itself. -/
def step_rule (al : Alert) (now : ℚ) (r : NotificationRule) : NotificationRule :=
  if fire_cond al now r then { r with last_triggered := some now } else r

/-- `SmartNotificationSystem._process_alert`: every enabled matching rule
out of cooldown fires (notifications sent, `last_triggered` updated).
Returns the updated rule list and the names of the rules that fired. -/
def process_alert (rules : List NotificationRule) (al : Alert) (now : ℚ) :
    List NotificationRule × List String :=
  (rules.map (step_rule al now),
   (rules.filter (fire_cond al now)).map NotificationRule.name)

/-- Modelled from the spec: the per-signal alert thresholds the
specification documents (velocity 0.8, pattern 0.7, anomaly 0.6,
coordination 0.75, others 0.6), keyed by the signal names the engine
actually emits.  Used to exhibit the divergence from `threshold_for`. -/
def claimed_signal_threshold (risk_type : String) : ℚ :=
  if risk_type = "velocity_risk" then 8/10
  else if risk_type = "pattern_risk" then 7/10
  else if risk_type = "anomaly_risk" then 3/5
  else if risk_type = "coordination_risk" then 3/4
  else 3/5

/-! ## Theorems -/

/-- Shared bound: the amount-suspicion signal always lies between 0.1 and
its cap 0.6, whatever the amount. -/
lemma amount_suspicion_bounds (a : ℚ) :
    1/10 ≤ analyze_amount_suspicion a ∧ analyze_amount_suspicion a ≤ 3/5 := by
  unfold analyze_amount_suspicion
  split_ifs <;> norm_num

/-- C1: an expense whose participant amounts differ from the total by more
than 0.01 is still accepted by schema validation — pydantic validates
fields in declaration order, so the participants validator's
`'amount' not in values` guard always fires and its raise is unreachable —
and is scored; the scored verdict carries the `amount_mismatch` violation
with severity high and confidence 0.95 ≥ 0.9. -/
theorem C1_mismatch_flagged_not_rejected (e : ExpenseIn)
    (cfg : EnsembleConfig) (hp hf : Bool) (ver : String) (ml : ℚ)
    (mlexp : List (String × ℚ))
    (h : |participant_total e.participants - e.amount| > 1/100) :
    expense_schema_accepts_participants e = Except.ok e.participants ∧
    (⟨"amount_mismatch", "high", 95/100⟩ : RuleViolation) ∈
      check_participant_mismatch e ∧
    (⟨"amount_mismatch", "high", 95/100⟩ : RuleViolation) ∈
      (predict_single cfg hp hf ver (Except.ok (ml, mlexp))
        (Except.ok (check_participant_mismatch e))).rule_violations ∧
    (9:ℚ)/10 ≤ 95/100 := by
  have hmem : (⟨"amount_mismatch", "high", 95/100⟩ : RuleViolation) ∈
      check_participant_mismatch e := by
    simp only [check_participant_mismatch]
    rw [if_pos h]
    exact List.mem_append_left _ (List.mem_singleton_self _)
  have hrv : (predict_single cfg hp hf ver (Except.ok (ml, mlexp))
      (Except.ok (check_participant_mismatch e))).rule_violations =
      check_participant_mismatch e := by
    cases hp <;> cases hf <;> rfl
  exact ⟨rfl, hmem, by rw [hrv]; exact hmem, by norm_num⟩

/-- C1, witness: the theorem applied to the concrete mismatched expense
with total 100 and a single participant owing 30. -/
theorem C1_witness :
    |participant_total [⟨"u1", (30:ℚ)⟩] - (100:ℚ)| > 1/100 ∧
    expense_schema_accepts_participants
        ⟨"e1", "g1", "p1", [⟨"u1", 30⟩], 100, "USD", none, none,
          "2024-01-01T00:00:00Z"⟩ = Except.ok [⟨"u1", 30⟩] ∧
    (⟨"amount_mismatch", "high", 95/100⟩ : RuleViolation) ∈
      check_participant_mismatch ⟨"e1", "g1", "p1", [⟨"u1", 30⟩], 100, "USD",
        none, none, "2024-01-01T00:00:00Z"⟩ :=
  ⟨by norm_num [participant_total],
    (C1_mismatch_flagged_not_rejected
      ⟨"e1", "g1", "p1", [⟨"u1", 30⟩], 100, "USD", none, none,
        "2024-01-01T00:00:00Z"⟩ defaultEnsembleConfig true true "v" 0 []
      (by norm_num [participant_total])).1,
    (C1_mismatch_flagged_not_rejected
      ⟨"e1", "g1", "p1", [⟨"u1", 30⟩], 100, "USD", none, none,
        "2024-01-01T00:00:00Z"⟩ defaultEnsembleConfig true true "v" 0 []
      (by norm_num [participant_total])).2.1⟩

/-- C2, counterexample: a rule-engine failure leaves no trace at all in the
verdict — the result is identical to a clean run with zero violations, so
no degraded flag or warnings list is surfaced; and an ML failure yields the
`model_version = "error"` safe default, which likewise carries no degraded
flag or warnings list. -/
theorem C2_counterexample :
    predict_single defaultEnsembleConfig true true "v1" (Except.ok (0, []))
        (Except.error "rule engine failure") =
      predict_single defaultEnsembleConfig true true "v1" (Except.ok (0, []))
        (Except.ok []) ∧
    predict_single defaultEnsembleConfig true true "v1"
        (Except.error "ml provider failure") (Except.ok []) = error_verdict := by
  exact ⟨rfl, rfl⟩

/-- C2, amended: `predict_single` always returns a verdict (it is total and
never raises), but partial failures are not surfaced as a degraded flag
plus warnings: a rule-engine failure is swallowed (the verdict is
indistinguishable from one with zero violations), and an ML failure
produces the safe default verdict with `model_version = "error"`. -/
theorem C2_failures_swallowed (cfg : EnsembleConfig) (hp hf : Bool)
    (ver : String) (mlc : Except String (ℚ × List (String × ℚ)))
    (err err2 : String) (rb : Except String (List RuleViolation)) :
    predict_single cfg hp hf ver mlc (Except.error err) =
      predict_single cfg hp hf ver mlc (Except.ok []) ∧
    (hp = true → hf = true →
      predict_single cfg hp hf ver (Except.error err2) rb = error_verdict) := by
  constructor
  · unfold predict_single
    cases hm : (if hp && hf then mlc else Except.ok (0, [])) with
    | error e => rfl
    | ok p => rfl
  · intro h1 h2
    subst h1; subst h2
    rfl

/-- C2, witness: the amended theorem at a concrete failing ML call. -/
theorem C2_witness :
    predict_single defaultEnsembleConfig true true "v2"
      (Except.error "boom") (Except.ok []) = error_verdict :=
  (C2_failures_swallowed defaultEnsembleConfig true true "v2"
    (Except.ok (0, [])) "x" "boom" (Except.ok [])).2 rfl rfl

/-- C3: for ml and rule scores in [0,1] the fused score is
`0.7*ml + 0.3*rule`, boosted by 1.1 and capped at 1 when both exceed 0.5,
and the verdict is suspicious exactly when the fused score reaches the
default threshold 0.6. -/
theorem C3_score_fusion (ml rule : ℚ) (hp hf : Bool) (ver : String)
    (mlexp : List (String × ℚ)) (rb : Except String (List RuleViolation))
    (h0 : 0 ≤ ml) (h1 : ml ≤ 1) (h2 : 0 ≤ rule) (h3 : rule ≤ 1) :
    combine_scores defaultEnsembleConfig ml rule =
      (if ml > 1/2 ∧ rule > 1/2
        then min 1 ((7/10 * ml + 3/10 * rule) * (11/10))
        else 7/10 * ml + 3/10 * rule) ∧
    ((predict_single defaultEnsembleConfig hp hf ver (Except.ok (ml, mlexp))
        rb).is_suspicious = true ↔
      3/5 ≤ (predict_single defaultEnsembleConfig hp hf ver
        (Except.ok (ml, mlexp)) rb).anomaly_score) := by
  constructor
  · rfl
  · cases hp <;> cases hf <;>
      simp [predict_single, defaultEnsembleConfig, ge_iff_le]

/-- C3, witness: the fusion theorem at ml = 0.6, rule = 0.8 with a fitted
model and an empty rule result. -/
theorem C3_witness :
    (0 ≤ (3:ℚ)/5 ∧ (3:ℚ)/5 ≤ 1 ∧ 0 ≤ (4:ℚ)/5 ∧ (4:ℚ)/5 ≤ 1) ∧
    combine_scores defaultEnsembleConfig (3/5) (4/5) =
      (if (3:ℚ)/5 > 1/2 ∧ (4:ℚ)/5 > 1/2
        then min 1 ((7/10 * (3/5) + 3/10 * (4/5)) * (11/10))
        else 7/10 * (3/5) + 3/10 * (4/5)) :=
  ⟨⟨by norm_num, by norm_num, by norm_num, by norm_num⟩,
    (C3_score_fusion (3/5) (4/5) true true "v" [] (Except.ok [])
      (by norm_num) (by norm_num) (by norm_num) (by norm_num)).1⟩

/-- C5: at a velocity signal of 0.7 the engine emits an alert candidate,
although the configured (and claimed) velocity threshold is 0.8 — the
`risk_thresholds` keys never match the signal names, so the 0.6 default
applies to every signal. -/
theorem C5_default_threshold_applied :
    generate_alerts [("velocity_risk", 7/10)] =
      [⟨"velocity_risk", "MEDIUM", 7/10⟩] ∧
    threshold_for "velocity_risk" = 3/5 ∧
    risk_thresholds.lookup "velocity_risk" = none ∧
    claimed_signal_threshold "velocity_risk" = 8/10 ∧
    ¬ ((7:ℚ)/10 ≥ claimed_signal_threshold "velocity_risk") := by
  have hlook : risk_thresholds.lookup "velocity_risk" = none := by rfl
  have ht : threshold_for "velocity_risk" = 3/5 := by
    simp [threshold_for, hlook]
  have hclaim : claimed_signal_threshold "velocity_risk" = 8/10 := by
    simp [claimed_signal_threshold]
  refine ⟨?_, ht, hlook, hclaim, by rw [hclaim]; norm_num⟩
  simp only [generate_alerts, List.filterMap]
  norm_num [ht]

/-- C6, counterexample: the amount-suspicion signal is not monotone in the
amount — 999 scores 0.5 (just-below-threshold band) while the larger 1000
scores 0.3 (round-amount rule). -/
theorem C6_counterexample :
    (999:ℚ) < 1000 ∧
    analyze_amount_suspicion 999 = 1/2 ∧
    analyze_amount_suspicion 1000 = 3/10 ∧
    ¬ (analyze_amount_suspicion 999 ≤ analyze_amount_suspicion 1000) := by
  have h999 : analyze_amount_suspicion 999 = 1/2 := by
    norm_num [analyze_amount_suspicion, pymod, suspicious_thresholds]
  have h1000 : analyze_amount_suspicion 1000 = 3/10 := by
    norm_num [analyze_amount_suspicion, pymod, suspicious_thresholds]
  exact ⟨by norm_num, h999, h1000, by rw [h999, h1000]; norm_num⟩

/-- C6, amended: increasing the amount can strictly decrease the
amount-suspicion signal (999 ↦ 0.5 but 1000 ↦ 0.3); what does hold is that
the signal is bounded: it always lies between 0.1 and its cap 0.6. -/
theorem C6_amended_bounds (a : ℚ) :
    1/10 ≤ analyze_amount_suspicion a ∧ analyze_amount_suspicion a ≤ 3/5 :=
  amount_suspicion_bounds a

/-- Helper: the `headI` of a nonempty list is a member. -/
lemma headI_mem_of_ne_nil {α} [Inhabited α] {l : List α} (h : l ≠ []) :
    l.headI ∈ l := by
  cases l with
  | nil => exact absurd rfl h
  | cons a as => exact List.mem_cons_self a as

/-- Shared bound: the pattern signal is nonnegative and at most 0.3. -/
lemma pattern_bounds (e : ExpenseData) :
    0 ≤ analyze_patterns e ∧ analyze_patterns e ≤ 3/10 := by
  unfold analyze_patterns
  dsimp only
  split_ifs <;> norm_num

/-- Shared bound: the coordination signal takes only the values 0.1, 0.8,
0.6, 0.7, 0.2, hence lies in [0,1]. -/
lemma coordination_bounds (gw : List (ℚ × ExpenseData)) (e : ExpenseData)
    (now mw : ℚ) :
    0 ≤ analyze_group_coordination gw e now mw ∧
    analyze_group_coordination gw e now mw ≤ 1 := by
  unfold analyze_group_coordination
  dsimp only
  split_ifs <;> norm_num

/-- Shared bound: the temporal signal lies in [0,1]. -/
lemma temporal_bounds (e : ExpenseData) (now : ℚ) :
    0 ≤ analyze_temporal_patterns e now ∧ analyze_temporal_patterns e now ≤ 1 := by
  unfold analyze_temporal_patterns
  dsimp only
  split_ifs <;> norm_num

/-- Helper: the final average of `_detect_anomalies` lies in [0,1] whenever
the z-score part is nonnegative and the category frequency is in [0,1]. -/
lemma anomaly_combine_bounds (z freq : ℚ) (hz : 0 ≤ z) (hf0 : 0 ≤ freq)
    (hf1 : freq ≤ 1) :
    0 ≤ (min 1 (z/3) + (1 - freq))/2 ∧ (min 1 (z/3) + (1 - freq))/2 ≤ 1 := by
  have h1 : 0 ≤ min 1 (z/3) := le_min (by norm_num) (by positivity)
  have h2 : min 1 (z/3) ≤ 1 := min_le_left _ _
  constructor <;> linarith

/-- Shared bound: the anomaly signal lies in [0,1] for every value of the
standard-deviation oracle `σ`. -/
lemma anomaly_bounds (σ : List ℚ → ℚ) (evs : List StoredEvent) (uid : String)
    (e : ExpenseData) :
    0 ≤ detect_anomalies σ evs uid e ∧ detect_anomalies σ evs uid e ≤ 1 := by
  simp only [detect_anomalies]
  by_cases hempty : lastN 20 (List.filter (fun ev => ev.user_id == uid) evs) = []
  · rw [if_pos hempty]
    norm_num
  · rw [if_neg hempty]
    refine anomaly_combine_bounds _ _ ?_ ?_ ?_
    · split_ifs <;>
        first
          | exact le_refl 0
          | exact div_nonneg (abs_nonneg _) (by linarith)
    · split_ifs with hcat
      · exact le_refl 0
      · positivity
    · split_ifs with hcat
      · norm_num
      · have hlen : 0 < ((lastN 20 (List.filter (fun ev => ev.user_id == uid)
            evs)).map StoredEvent.category).length := List.length_pos.2 hcat
        rw [div_le_one (by exact_mod_cast hlen)]
        exact_mod_cast List.count_le_length e.category _

/-- Helper: bound for the measurement branch of `_analyze_velocity`,
phrased over an arbitrary evicted window `w2` of past nonnegative
transactions. -/
lemma velocity_body_bounds (w2 : List (ℚ × ℚ)) (now : ℚ)
    (h : ∀ p ∈ w2, p.1 ≤ now ∧ 0 ≤ p.2) :
    0 ≤ (if w2.length < 2 then (1:ℚ)/10
      else
        let recent_count : ℚ := w2.length
        let total_amount := (w2.map Prod.snd).sum
        let time_span := (now - w2.headI.1) / 3600
        if time_span = 0 then 9/10
        else (min 1 (recent_count / 20) + min 1 (total_amount / (time_span * 1000))) / 2) ∧
    (if w2.length < 2 then (1:ℚ)/10
      else
        let recent_count : ℚ := w2.length
        let total_amount := (w2.map Prod.snd).sum
        let time_span := (now - w2.headI.1) / 3600
        if time_span = 0 then 9/10
        else (min 1 (recent_count / 20) + min 1 (total_amount / (time_span * 1000))) / 2) ≤ 1 := by
  dsimp only
  split_ifs with hlen hspan
  · exact ⟨by norm_num, by norm_num⟩
  · exact ⟨by norm_num, by norm_num⟩
  · have hne : w2 ≠ [] := by
      intro hnil
      rw [hnil] at hlen
      simp at hlen
    have hhead := h w2.headI (headI_mem_of_ne_nil hne)
    have hspan0 : 0 ≤ (now - w2.headI.1) / 3600 := by
      have h1 := hhead.1
      have h2 : 0 ≤ now - w2.headI.1 := by linarith
      positivity
    have hspan_pos : 0 < (now - w2.headI.1) / 3600 :=
      lt_of_le_of_ne hspan0 (Ne.symm hspan)
    have hcount : (0:ℚ) ≤ (w2.length : ℚ) := Nat.cast_nonneg _
    have htotal : 0 ≤ (w2.map Prod.snd).sum := by
      apply List.sum_nonneg
      intro x hx
      rcases List.mem_map.1 hx with ⟨p, hp, rfl⟩
      exact (h p hp).2
    have hm1a : 0 ≤ min 1 ((w2.length : ℚ) / 20) :=
      le_min (by norm_num) (by positivity)
    have hm1b : min 1 ((w2.length : ℚ) / 20) ≤ 1 := min_le_left _ _
    have hm2a : 0 ≤ min 1 ((w2.map Prod.snd).sum / ((now - w2.headI.1) / 3600 * 1000)) :=
      le_min (by norm_num) (div_nonneg htotal (by positivity))
    have hm2b : min 1 ((w2.map Prod.snd).sum / ((now - w2.headI.1) / 3600 * 1000)) ≤ 1 :=
      min_le_left _ _
    constructor <;> linarith

/-- Shared bound: the velocity signal lies in [0,1] for a positive-amount
event against a window of past nonnegative transactions. -/
lemma velocity_bounds (window : List (ℚ × ℚ)) (amount now mw : ℚ)
    (hA : 0 ≤ amount) (hW : ∀ p ∈ window, p.1 ≤ now ∧ 0 ≤ p.2) :
    0 ≤ analyze_velocity window amount now mw ∧
    analyze_velocity window amount now mw ≤ 1 := by
  have hW1 : ∀ p ∈ window ++ [(now, amount)], p.1 ≤ now ∧ 0 ≤ p.2 := by
    intro p hp
    rcases List.mem_append.1 hp with hp | hp
    · exact hW p hp
    · have := List.mem_singleton.1 hp
      subst this
      exact ⟨le_refl _, hA⟩
  have hW2 : ∀ p ∈ ((if 100 < (window ++ [(now, amount)]).length
      then (window ++ [(now, amount)]).drop ((window ++ [(now, amount)]).length - 100)
      else (window ++ [(now, amount)])).dropWhile
        (fun ta => decide (ta.1 < now - mw))),
      p.1 ≤ now ∧ 0 ≤ p.2 := by
    intro p hp
    apply hW1
    have hp' := (List.dropWhile_sublist _).subset hp
    revert hp'
    split
    · intro hp'
      exact List.drop_subset _ _ hp'
    · intro hp'
      exact hp'
  exact velocity_body_bounds _ now hW2

/-- Helper: `_categorize_risk` realises the documented threshold table. -/
lemma categorize_risk_spec (x : ℚ) :
    (8/10 ≤ x → categorize_risk x = "CRITICAL") ∧
    (3/5 ≤ x → x < 8/10 → categorize_risk x = "HIGH") ∧
    (2/5 ≤ x → x < 3/5 → categorize_risk x = "MEDIUM") ∧
    (1/5 ≤ x → x < 2/5 → categorize_risk x = "LOW") ∧
    (x < 1/5 → categorize_risk x = "MINIMAL") := by
  unfold categorize_risk
  refine ⟨?_, ?_, ?_, ?_, ?_⟩ <;> intro h1 <;>
    first
    | (intro h2; split_ifs <;> first | rfl | linarith)
    | (split_ifs <;> first | rfl | linarith)

/-- C4: for a valid event (positive amount, window entries in the past with
nonnegative amounts) the overall real-time risk is the arithmetic mean of
the six signals, lies in [0,1], and the risk level follows the documented
thresholds (Critical ≥ 0.8, High ≥ 0.6, Medium ≥ 0.4, Low ≥ 0.2, Minimal
below). -/
theorem C4_mean_bounds_level (σ : List ℚ → ℚ) (mw : ℚ) (st : EngineState)
    (e : ExpenseData) (now : ℚ) (hA : 0 < e.amount)
    (hW : ∀ p ∈ st.user_window, p.1 ≤ now ∧ 0 ≤ p.2) :
    (analyze_real_time_risk σ mw st e now).overall =
      (analyze_velocity st.user_window e.amount now mw + analyze_patterns e +
       analyze_group_coordination st.group_window e now mw +
       detect_anomalies σ st.recent_events e.user_id e +
       analyze_temporal_patterns e now + analyze_amount_suspicion e.amount) / 6 ∧
    (0 ≤ (analyze_real_time_risk σ mw st e now).overall ∧
     (analyze_real_time_risk σ mw st e now).overall ≤ 1) ∧
    ((8/10 ≤ (analyze_real_time_risk σ mw st e now).overall →
       (analyze_real_time_risk σ mw st e now).risk_level = "CRITICAL") ∧
     (3/5 ≤ (analyze_real_time_risk σ mw st e now).overall →
       (analyze_real_time_risk σ mw st e now).overall < 8/10 →
       (analyze_real_time_risk σ mw st e now).risk_level = "HIGH") ∧
     (2/5 ≤ (analyze_real_time_risk σ mw st e now).overall →
       (analyze_real_time_risk σ mw st e now).overall < 3/5 →
       (analyze_real_time_risk σ mw st e now).risk_level = "MEDIUM") ∧
     (1/5 ≤ (analyze_real_time_risk σ mw st e now).overall →
       (analyze_real_time_risk σ mw st e now).overall < 2/5 →
       (analyze_real_time_risk σ mw st e now).risk_level = "LOW") ∧
     ((analyze_real_time_risk σ mw st e now).overall < 1/5 →
       (analyze_real_time_risk σ mw st e now).risk_level = "MINIMAL")) := by
  have hV := velocity_bounds st.user_window e.amount now mw (le_of_lt hA) hW
  have hP := pattern_bounds e
  have hC := coordination_bounds st.group_window e now mw
  have hAn := anomaly_bounds σ st.recent_events e.user_id e
  have hT := temporal_bounds e now
  have hS := amount_suspicion_bounds e.amount
  have hov : (analyze_real_time_risk σ mw st e now).overall =
      (analyze_velocity st.user_window e.amount now mw + analyze_patterns e +
       analyze_group_coordination st.group_window e now mw +
       detect_anomalies σ st.recent_events e.user_id e +
       analyze_temporal_patterns e now + analyze_amount_suspicion e.amount) / 6 := rfl
  have hrl : (analyze_real_time_risk σ mw st e now).risk_level =
      categorize_risk ((analyze_real_time_risk σ mw st e now).overall) := rfl
  refine ⟨hov, ⟨?_, ?_⟩, ?_⟩
  · rw [hov]
    have := hS.1
    linarith [hV.1, hP.1, hC.1, hAn.1, hT.1]
  · rw [hov]
    have := hS.2
    linarith [hV.2, hP.2, hC.2, hAn.2, hT.2]
  · rw [hrl]
    exact categorize_risk_spec _

/-- C4, witness: the theorem at a fresh engine state and the concrete
daytime expense of 51. -/
theorem C4_witness :
    ((0:ℚ) < 51 ∧ ∀ p ∈ ([] : List (ℚ × ℚ)), p.1 ≤ (36000:ℚ) ∧ 0 ≤ p.2) ∧
    (0 ≤ (analyze_real_time_risk (fun _ => 0) 3600 ⟨[], [], []⟩
        ⟨"u1", "g1", 51, "", "", ""⟩ 36000).overall ∧
      (analyze_real_time_risk (fun _ => 0) 3600 ⟨[], [], []⟩
        ⟨"u1", "g1", 51, "", "", ""⟩ 36000).overall ≤ 1) :=
  ⟨⟨by norm_num, by intro p hp; cases hp⟩,
    (C4_mean_bounds_level (fun _ => 0) 3600 ⟨[], [], []⟩
      ⟨"u1", "g1", 51, "", "", ""⟩ 36000 (by norm_num)
      (by intro p hp; cases hp)).2.1⟩

/-- Helper: the risk type of a literal alert candidate. -/
lemma alert_risk_type_mk (n s : String) (q : ℚ) :
    (AlertCandidate.mk n s q).risk_type = n := rfl

/-- C10: the pattern signal never exceeds 0.3 (the four indicator weights
sum to 1.2 and are divided by the 4 indicators checked), so a pattern-type
alert candidate is never emitted for any input. -/
theorem C10_pattern_alert_never :
    (∀ e, analyze_patterns e ≤ 3/10) ∧
    (∀ (σ : List ℚ → ℚ) (mw : ℚ) (st : EngineState) (e : ExpenseData) (now : ℚ),
      ((analyze_real_time_risk σ mw st e now).alerts.filter
        (fun al => al.risk_type == "pattern_risk")) = []) := by
  constructor
  · intro e
    exact (pattern_bounds e).2
  · intro σ mw st e now
    rw [List.filter_eq_nil_iff]
    intro al hal
    have hthr : threshold_for "pattern_risk" = 3/5 := rfl
    simp only [analyze_real_time_risk, generate_alerts] at hal
    rw [List.mem_filterMap] at hal
    obtain ⟨entry, hmem, hsome⟩ := hal
    simp only [List.mem_cons, List.not_mem_nil, or_false] at hmem
    rcases hmem with rfl | rfl | rfl | rfl | rfl | rfl | rfl <;>
      dsimp only at hsome
    · revert hsome
      split
      · intro hsome
        injection hsome with hal
        subst hal
        rw [alert_risk_type_mk]
        decide
      · intro hsome
        cases hsome
    · have hb := (pattern_bounds e).2
      have hcond : ¬ (threshold_for "pattern_risk" ≤ analyze_patterns e) := by
        rw [hthr]
        intro hc
        linarith
      rw [if_neg hcond] at hsome
      cases hsome
    · revert hsome
      split
      · intro hsome
        injection hsome with hal
        subst hal
        rw [alert_risk_type_mk]
        decide
      · intro hsome
        cases hsome
    · revert hsome
      split
      · intro hsome
        injection hsome with hal
        subst hal
        rw [alert_risk_type_mk]
        decide
      · intro hsome
        cases hsome
    · revert hsome
      split
      · intro hsome
        injection hsome with hal
        subst hal
        rw [alert_risk_type_mk]
        decide
      · intro hsome
        cases hsome
    · revert hsome
      split
      · intro hsome
        injection hsome with hal
        subst hal
        rw [alert_risk_type_mk]
        decide
      · intro hsome
        cases hsome
    · revert hsome
      split
      · intro hsome
        injection hsome with hal
        subst hal
        rw [alert_risk_type_mk]
        decide
      · intro hsome
        cases hsome

/-- Helper: the temporal signal of the bare daytime expense at the 03:00
call instant (late-night branch fires). -/
lemma temporal_at_hour3 :
    analyze_temporal_patterns ⟨"u1", "g1", 51, "", "", ""⟩ 10800 = 2/5 := by
  norm_num [analyze_temporal_patterns, hourOf, weekdayOf]

/-- Helper: the temporal signal of the same expense at the 10:00 call
instant (no branch fires). -/
lemma temporal_at_hour10 :
    analyze_temporal_patterns ⟨"u1", "g1", 51, "", "", ""⟩ 36000 = 0 := by
  have hleis : leisure_category_words.any
      (fun w => hasSub (lowerStr "") w.data) = false := by rfl
  norm_num [analyze_temporal_patterns, hourOf, weekdayOf, hleis]

/-- C8, counterexample: two identical scoring calls against the identical
fresh engine state yield different verdicts when made at different
wall-clock instants (a 03:00 call scores the temporal signal 0.4, a 10:00
call scores it 0), so core scoring does depend on the wall-clock time of
the call. -/
theorem C8_counterexample :
    analyze_real_time_risk (fun _ => 0) 3600 ⟨[], [], []⟩
        ⟨"u1", "g1", 51, "", "", ""⟩ 10800 ≠
      analyze_real_time_risk (fun _ => 0) 3600 ⟨[], [], []⟩
        ⟨"u1", "g1", 51, "", "", ""⟩ 36000 := by
  intro hEq
  have h := congrArg RTResult.risk_scores hEq
  simp only [analyze_real_time_risk, List.cons.injEq, Prod.mk.injEq, and_true,
    true_and] at h
  obtain ⟨-, -, hT, -⟩ := h
  rw [temporal_at_hour3, temporal_at_hour10] at hT
  norm_num at hT

/-- C8, amended: core scoring is deterministic as a function of the event,
the stored window/profile state, and the wall-clock instant of the call —
two calls agreeing on all three yield identical verdicts; the verdict is
not independent of the call instant (the temporal signal reads the call's
hour and weekday). -/
theorem C8_deterministic (σ : List ℚ → ℚ) (mw : ℚ) (st st2 : EngineState)
    (e e2 : ExpenseData) (t t2 : ℚ)
    (he : e = e2) (hs : st = st2) (ht : t = t2) :
    analyze_real_time_risk σ mw st e t = analyze_real_time_risk σ mw st2 e2 t2 := by
  subst he
  subst hs
  subst ht
  rfl

/-- C8, witness: determinism at a concrete repeated call. -/
theorem C8_witness :
    analyze_real_time_risk (fun _ => 0) 3600 ⟨[], [], []⟩
        ⟨"u1", "g1", 51, "", "", ""⟩ 10800 =
      analyze_real_time_risk (fun _ => 0) 3600 ⟨[], [], []⟩
        ⟨"u1", "g1", 51, "", "", ""⟩ 10800 :=
  C8_deterministic (fun _ => 0) 3600 ⟨[], [], []⟩ ⟨[], [], []⟩
    ⟨"u1", "g1", 51, "", "", ""⟩ ⟨"u1", "g1", 51, "", "", ""⟩ 10800 10800
    rfl rfl rfl

/-- Helper: folding `update_user_profile` over a list of amounts advances
the count by the list length and scales the stored average so that it
equals the running arithmetic mean. -/
lemma user_fold_mean (cat pm loc : String) (hr : Option ℤ) (fraud : Bool)
    (amounts : List ℚ) (p : UserProfile) :
    ((amounts.foldl (fun q a => update_user_profile q a cat pm loc hr fraud)
        p).total_expenses = p.total_expenses + amounts.length) ∧
    ((amounts.foldl (fun q a => update_user_profile q a cat pm loc hr fraud)
        p).avg_amount * ((p.total_expenses : ℚ) + (amounts.length : ℚ))
      = p.avg_amount * (p.total_expenses : ℚ) + amounts.sum) := by
  induction amounts generalizing p with
  | nil => simp
  | cons a as ih =>
    simp only [List.foldl_cons, List.length_cons, List.sum_cons]
    have hcount : (update_user_profile p a cat pm loc hr fraud).total_expenses
        = p.total_expenses + 1 := rfl
    have havg : (update_user_profile p a cat pm loc hr fraud).avg_amount
        = (p.avg_amount * (((p.total_expenses + 1 : ℕ) : ℚ) - 1) + a)
            / ((p.total_expenses + 1 : ℕ) : ℚ) := rfl
    obtain ⟨ih1, ih2⟩ := ih (update_user_profile p a cat pm loc hr fraud)
    constructor
    · rw [ih1, hcount]
      omega
    · rw [hcount, havg] at ih2
      have hne : ((p.total_expenses + 1 : ℕ) : ℚ) ≠ 0 := by positivity
      rw [div_mul_eq_mul_div, mul_comm] at ih2
      push_cast at ih2 ⊢
      have hne2 : ((p.total_expenses : ℚ) + 1) ≠ 0 := by positivity
      field_simp at ih2
      ring_nf at ih2 ⊢
      linarith [ih2]

/-- C9: the user profile's stored average is maintained as the exact
arithmetic running mean, but the group profile's is not: with no
`total_expenses` field on `GroupProfile`, the `getattr` default 1 makes the
update `(avg + amount)/2`, so after a single event of amount 100 the fresh
group profile stores 50 while the arithmetic mean of the observed amounts
is 100. -/
theorem C9_group_average_bug :
    (∀ (amounts : List ℚ) (cat pm loc : String) (hr : Option ℤ),
      ((amounts.foldl (fun q a => update_user_profile q a cat pm loc hr false)
          (freshUserProfile "u")).total_expenses = amounts.length ∧
       (amounts.foldl (fun q a => update_user_profile q a cat pm loc hr false)
          (freshUserProfile "u")).avg_amount * (amounts.length : ℚ)
        = amounts.sum)) ∧
    (update_group_profile (freshGroupProfile "g") 100 "food"
        false).avg_expense_amount = 50 ∧
    (([100] : List ℚ).sum / ((([100] : List ℚ).length : ℕ) : ℚ) = 100 ∧
      (50 : ℚ) ≠ 100) := by
  refine ⟨?_, ?_, by norm_num, by norm_num⟩
  · intro amounts cat pm loc hr
    have h := user_fold_mean cat pm loc hr false amounts (freshUserProfile "u")
    simpa [freshUserProfile] using h
  · norm_num [update_group_profile, freshGroupProfile]

/-- C7: a notification rule fires only when it has never fired or when
strictly more than its cooldown has elapsed since `last_triggered`; firing
writes `last_triggered = now` onto the rule object itself, and the cooldown
check reads only the rule (not the alert's user or group), so a rule that
fired at `T` does not fire again — for any alert from any user or group —
at any instant `t2` with `t2 - T ≤ cooldown`. -/
theorem C7_cooldown_gate (rules : List NotificationRule)
    (r : NotificationRule) (al al2 : Alert) (now t2 T : ℚ) :
    (process_alert rules al now).1 = rules.map (step_rule al now) ∧
    (fire_cond al now r = true →
      r.enabled = true ∧ matches_rule al r = true ∧
      ∀ T0, r.last_triggered = some T0 → now - T0 > r.cooldown_minutes) ∧
    (fire_cond al now r = true →
      (step_rule al now r).last_triggered = some now) ∧
    (r.last_triggered = some T → t2 - T ≤ r.cooldown_minutes →
      fire_cond al2 t2 r = false ∧ step_rule al2 t2 r = r) := by
  refine ⟨rfl, ?_, ?_, ?_⟩
  · intro hf
    simp only [fire_cond, Bool.and_eq_true] at hf
    obtain ⟨⟨he, hm⟩, hs⟩ := hf
    refine ⟨he, hm, ?_⟩
    intro T0 hT0
    unfold should_notify at hs
    rw [hT0] at hs
    exact of_decide_eq_true hs
  · intro hf
    unfold step_rule
    rw [if_pos hf]
  · intro hT hle
    have hsn : should_notify r t2 = false := by
      unfold should_notify
      rw [hT]
      simp only [decide_eq_false_iff_not]
      exact not_lt.2 hle
    have hfc : fire_cond al2 t2 r = false := by
      simp [fire_cond, hsn]
    exact ⟨hfc, by simp [step_rule, hfc]⟩

/-- C7, witness: a condition-free HIGH-threshold rule fires on a CRITICAL
alert when never triggered before; the same rule, last triggered at 10 with
cooldown 30, does not fire at instant 20. -/
theorem C7_witness :
    (step_rule ⟨"u", "g", AlertSeverity.CRITICAL, 9/10, 100, "velocity_risk"⟩ 0
        ⟨"High Risk Transaction", [], AlertSeverity.HIGH, 30, true, none⟩).last_triggered
      = some 0 ∧
    fire_cond ⟨"u", "g", AlertSeverity.CRITICAL, 9/10, 100, "velocity_risk"⟩ 20
        ⟨"High Risk Transaction", [], AlertSeverity.HIGH, 30, true, some 10⟩
      = false :=
  ⟨(C7_cooldown_gate []
      ⟨"High Risk Transaction", [], AlertSeverity.HIGH, 30, true, none⟩
      ⟨"u", "g", AlertSeverity.CRITICAL, 9/10, 100, "velocity_risk"⟩
      ⟨"u", "g", AlertSeverity.CRITICAL, 9/10, 100, "velocity_risk"⟩
      0 20 10).2.2.1 rfl,
   ((C7_cooldown_gate []
      ⟨"High Risk Transaction", [], AlertSeverity.HIGH, 30, true, some 10⟩
      ⟨"u", "g", AlertSeverity.CRITICAL, 9/10, 100, "velocity_risk"⟩
      ⟨"u", "g", AlertSeverity.CRITICAL, 9/10, 100, "velocity_risk"⟩
      0 20 10).2.2.2 rfl (by norm_num)).1⟩

end SafeSplitX
